import Mathlib

/-!
Verification development for the Superfluid documentation site repository.

The repository consists of a single Docusaurus configuration module
(docusaurus.config.ts) and a Markdown content page describing Superfluid
Distribution Pools.  Below, the configuration object is embedded as a
family of Lean structures mirroring the TypeScript object literal, and the
pool-share arithmetic described by the content page is embedded as
functions on natural numbers.
-/

/-- The i18n block of the configuration (docusaurus.config.ts lines 28-31). -/
structure I18n where
  defaultLocale : String
  locales : List String
  deriving DecidableEq

/-- The colorMode block of themeConfig (lines 59-63). -/
structure ColorMode where
  defaultMode : String
  disableSwitch : Bool
  respectPrefersColorScheme : Bool
  deriving DecidableEq

/-- The navbar logo (lines 67-71). -/
structure Logo where
  alt : String
  src : String
  srcDark : String
  deriving DecidableEq

/-- A child entry of the dropdown navbar item (lines 122-131): the source
objects carry exactly a label and an href, nothing else. -/
structure NavChild where
  label : String
  href : String
  deriving DecidableEq

/-- A top-level navbar item (lines 72-133).  The TypeScript objects are
heterogeneous: each key that can be absent is modelled as an Option that
defaults to none, and a key absent from the object literal is none. -/
structure NavbarItem where
  type : Option String := none
  sidebarId : Option String := none
  href : Option String := none
  toRoute : Option String := none
  position : Option String := none
  label : Option String := none
  items : List NavChild := []
  deriving DecidableEq

/-- The navbar block of themeConfig (lines 65-134). -/
structure Navbar where
  title : String
  logo : Logo
  items : List NavbarItem
  deriving DecidableEq

/-- An entry of a footer link group (lines 141-194): a label together with
either an internal route (to) or an external URL (href). -/
structure FooterLinkItem where
  label : String
  toRoute : Option String := none
  href : Option String := none
  deriving DecidableEq

/-- A footer link group (lines 138-196). -/
structure FooterLinkGroup where
  title : String
  items : List FooterLinkItem
  deriving DecidableEq

/-- The footer block of themeConfig (lines 135-199). -/
structure Footer where
  style : String
  links : List FooterLinkGroup
  copyright : String
  deriving DecidableEq

/-- The prism block of themeConfig (lines 200-204); the two imported theme
objects are identified by their names. -/
structure Prism where
  theme : String
  darkTheme : String
  additionalLanguages : List String
  deriving DecidableEq

/-- The algolia block of themeConfig (lines 205-233). -/
structure Algolia where
  appId : String
  apiKey : String
  indexName : String
  contextualSearch : Bool
  searchPagePath : String
  deriving DecidableEq

/-- The search provider inside the markprompt block (lines 241-246). -/
structure MarkpromptProvider where
  name : String
  apiKey : String
  appId : String
  indexName : String
  deriving DecidableEq

/-- The search sub-block of the markprompt block (lines 239-247). -/
structure MarkpromptSearch where
  enabled : Bool
  provider : MarkpromptProvider
  deriving DecidableEq

/-- The trigger sub-block of the markprompt block (line 238). -/
structure MarkpromptTrigger where
  floating : Bool
  deriving DecidableEq

/-- The markprompt block of themeConfig (lines 234-248). -/
structure Markprompt where
  projectKey : String
  trigger : MarkpromptTrigger
  search : MarkpromptSearch
  deriving DecidableEq

/-- One redirect rule of the client-redirects plugin (lines 254-259).
The source key named from is spelled fromPath because from is a reserved
word in Lean. -/
structure Redirect where
  toRoute : String
  fromPath : String
  deriving DecidableEq

/-- A plugin declaration (lines 249-262): a package name plus its options;
the only structured option in the source is the redirect list of the
client-redirects plugin. -/
structure Plugin where
  name : String
  redirects : List Redirect := []
  deriving DecidableEq

/-- The themeConfig block (lines 58-263). -/
structure ThemeConfig where
  colorMode : ColorMode
  image : String
  navbar : Navbar
  footer : Footer
  prism : Prism
  algolia : Algolia
  markprompt : Markprompt
  plugins : List Plugin
  deriving DecidableEq

/-- The docs options of the classic preset (lines 37-43). -/
structure DocsPreset where
  sidebarPath : String
  editUrl : String
  deriving DecidableEq

/-- The blog options of the classic preset (lines 44-50). -/
structure BlogPreset where
  showReadingTime : Bool
  editUrl : String
  deriving DecidableEq

/-- The theme options of the classic preset (lines 51-53). -/
structure ThemePreset where
  customCss : String
  deriving DecidableEq

/-- The option object of the classic preset (lines 36-54). -/
structure PresetOptions where
  docs : DocsPreset
  blog : BlogPreset
  theme : ThemePreset
  deriving DecidableEq

/-- The whole exported configuration object (lines 5-264). -/
structure SiteConfig where
  title : String
  tagline : String
  favicon : String
  themes : List String
  url : String
  baseUrl : String
  organizationName : String
  projectName : String
  onBrokenLinks : String
  onBrokenMarkdownLinks : String
  i18n : I18n
  presets : List (String × PresetOptions)
  themeConfig : ThemeConfig
  deriving DecidableEq

/-- The navbar items list (lines 72-133).  The commented-out UseCases block
of the source is omitted, as a comment declares nothing. -/
def navbar_items : List NavbarItem :=
  [ { type := some "docSidebar", sidebarId := some "Concepts",
      position := some "left", label := some "Concepts" },
    { type := some "docSidebar", sidebarId := some "Protocol",
      position := some "left", label := some "Protocol" },
    { type := some "docSidebar", sidebarId := some "SDK",
      position := some "left", label := some "SDK" },
    { type := some "docSidebar", sidebarId := some "TechnicalReference",
      position := some "left", label := some "Technical Reference" },
    { href := some "https://console.superfluid.finance/",
      position := some "right", label := some "Console" },
    { href := some "https://github.com/superfluid-finance",
      position := some "right", label := some "Github" },
    { href := some "https://discord.gg/pPzPEDMVua",
      position := some "right", label := some "Discord" },
    { type := some "dropdown", label := some "Version",
      position := some "right",
      items := [ { label := "Current", href := "#" },
                 { label := "Legacy", href := "https://superfluid.gitbook.io/" } ] } ]

/-- The footer link groups (lines 137-197). -/
def footer_links : List FooterLinkGroup :=
  [ { title := "Docs",
      items :=
        [ { label := "Concepts", toRoute := some "/docs/concepts/superfluid" },
          { label := "Protocol", toRoute := some "/docs/protocol/quickstart" },
          { label := "SDK", toRoute := some "/docs/sdk/overview" },
          { label := "Technical Reference", toRoute := some "/docs/technical-reference/intro" } ] },
    { title := "Community",
      items :=
        [ { label := "Github", href := some "https://github.com/superfluid-finance" },
          { label := "Discord", href := some "https://discord.gg/pPzPEDMVua" },
          { label := "X/Twitter",
            href := some "https://twitter.com/intent/follow?screen_name=Superfluid_HQ" } ] },
    { title := "More",
      items :=
        [ { label := "About Us", href := some "https://www.superfluid.finance/about" },
          { label := "Blog", href := some "https://www.superfluid.finance/blog" },
          { label := "Terms of Use", href := some "https://www.superfluid.finance/terms" },
          { label := "Privacy Policy",
            href := some "https://www.iubenda.com/privacy-policy/34415583/legal" } ] } ]

/-- The algolia block (lines 205-233). -/
def algolia_block : Algolia :=
  { appId := "O3JEVRIQUM",
    apiKey := "8de88a77f0d3ae7ea04ea6e10bd6b52c",
    indexName := "v2-omega",
    contextualSearch := false,
    searchPagePath := "search" }

/-- The markprompt block (lines 234-248). -/
def markprompt_block : Markprompt :=
  { projectKey := "sk_test_ubCqOlHANKE1H1teDc6ykbIV2asfKklN",
    trigger := { floating := false },
    search :=
      { enabled := true,
        provider :=
          { name := "algolia",
            apiKey := "8de88a77f0d3ae7ea04ea6e10bd6b52c",
            appId := "O3JEVRIQUM",
            indexName := "v2-omega" } } }

/-- The plugin list (lines 249-262). -/
def plugins_block : List Plugin :=
  [ { name := "@saucelabs/theme-github-codeblock" },
    { name := "@docusaurus/plugin-client-redirects",
      redirects :=
        [ { toRoute := "/docs/concepts/superfluid",
            fromPath := "/superfluid/protocol-overview/in-depth-overview" } ] } ]

/-- The configuration object (lines 5-264).  The only part of the object
that depends on the evaluation environment is the footer copyright string,
which interpolates the current year (line 198); the object is therefore
embedded as a function of that year. -/
def config (year : Nat) : SiteConfig :=
  { title := "Superfluid Docs",
    tagline := "Docs but they hyper super fluid",
    favicon := "img/favicon.ico",
    themes := ["@docusaurus/theme-live-codeblock", "@markprompt/docusaurus-theme-search"],
    url := "https://docs.superfluid.finance/",
    baseUrl := "/",
    organizationName := "facebook",
    projectName := "docusaurus",
    onBrokenLinks := "ignore",
    onBrokenMarkdownLinks := "warn",
    i18n := { defaultLocale := "en", locales := ["en"] },
    presets :=
      [ ("classic",
         { docs :=
             { sidebarPath := "./sidebars.ts",
               editUrl := "https://github.com/facebook/docusaurus/tree/main/packages/create-docusaurus/templates/shared/" },
           blog :=
             { showReadingTime := true,
               editUrl := "https://github.com/facebook/docusaurus/tree/main/packages/create-docusaurus/templates/shared/" },
           theme := { customCss := "./src/css/custom.css" } }) ],
    themeConfig :=
      { colorMode :=
          { defaultMode := "dark", disableSwitch := false,
            respectPrefersColorScheme := true },
        image := "img/docusaurus-social-card.png",
        navbar :=
          { title := "Docs",
            logo := { alt := "My Site Logo", src := "img/logo-black.svg",
                      srcDark := "img/logo.svg" },
            items := navbar_items },
        footer :=
          { style := "dark",
            links := footer_links,
            copyright := "Copyright © " ++ toString year ++ " Superfluid Finance LTD. Built with Docusaurus." },
        prism :=
          { theme := "github", darkTheme := "dracula",
            additionalLanguages := ["solidity"] },
        algolia := algolia_block,
        markprompt := markprompt_block,
        plugins := plugins_block } }

/-- The top-level keys present in the configuration object literal, in
source order (lines 5-264). -/
def configTopLevelKeys : List String :=
  ["title", "tagline", "favicon", "themes", "url", "baseUrl",
   "organizationName", "projectName", "onBrokenLinks",
   "onBrokenMarkdownLinks", "i18n", "presets", "themeConfig"]

/-- Flow rate per unit, as described by the Distribution Pools page
(content step 1 and the rounding note): the total flow rate divided by the
total units; because Solidity cannot handle floating point numbers the
result is an integer, rounded down, which is exactly natural-number
division. -/
def flowRatePerUnit (totalFlowRate totalUnits : Nat) : Nat :=
  totalFlowRate / totalUnits

/-- Flow rate for one member (content step 2): the flow rate per unit
multiplied by the number of units the member holds. -/
def memberFlowRate (totalFlowRate totalUnits units : Nat) : Nat :=
  flowRatePerUnit totalFlowRate totalUnits * units

/-- Total amount distributed by a pool whose members hold the given unit
counts: each member receives its member flow rate, computed against the
sum of all units. -/
def totalDistributed (totalFlowRate : Nat) (members : List Nat) : Nat :=
  (members.map (fun u => memberFlowRate totalFlowRate members.sum u)).sum

/-- The part of the total flow rate left undistributed by the two-step
share algorithm. -/
def undistributed (totalFlowRate : Nat) (members : List Nat) : Nat :=
  totalFlowRate - totalDistributed totalFlowRate members

/-- The statements of the configuration module after its imports: one
const binding constructing the configuration object (lines 5-264) and the
default export (line 266).  The module declares nothing else. -/
inductive ModuleStmt where
  | defineConfig
  | exportDefault
  deriving DecidableEq

/-- The binding environment of the module: the config binding and the
default export slot. -/
structure ModuleState where
  configBinding : Option SiteConfig
  exported : Option SiteConfig
  deriving DecidableEq

/-- Executing one module statement in the environment of a given year:
the const binding stores the constructed object; the export statement
copies the binding into the export slot and writes nothing. -/
def execStmt (year : Nat) (s : ModuleState) : ModuleStmt → ModuleState
  | ModuleStmt.defineConfig => { s with configBinding := some (config year) }
  | ModuleStmt.exportDefault => { s with exported := s.configBinding }

/-- The statement list of the module, in source order. -/
def moduleStmts : List ModuleStmt :=
  [ModuleStmt.defineConfig, ModuleStmt.exportDefault]

/-- Evaluating the whole module in the environment of a given year. -/
def runModule (year : Nat) : ModuleState :=
  moduleStmts.foldl (execStmt year) { configBinding := none, exported := none }

/-- Whether a navbar entry carries an explicit link target (an href or an
internal route). -/
def hasLinkTarget (i : NavbarItem) : Bool :=
  i.href.isSome || i.toRoute.isSome

/-- Whether a navbar entry has a label, a link target, and a position. -/
def entryWellFormed (i : NavbarItem) : Bool :=
  i.label.isSome && hasLinkTarget i && i.position.isSome

/-- Replacing the footer copyright string of a configuration value. -/
def setCopyright (c : SiteConfig) (s : String) : SiteConfig :=
  { c with themeConfig :=
    { c.themeConfig with footer :=
      { c.themeConfig.footer with copyright := s } } }

/-- The redirect rules of the client-redirects plugin, extracted from the
plugin list by package name. -/
def clientRedirects : List Redirect :=
  (plugins_block.filter
    (fun p => p.name == "@docusaurus/plugin-client-redirects")).flatMap Plugin.redirects

/-- All internal route targets declared by the footer link groups. -/
def footerRouteTargets : List String :=
  (footer_links.flatMap FooterLinkGroup.items).filterMap FooterLinkItem.toRoute

/-- The link target of the first item of the first footer group (the
Concepts entry). -/
def footerFirstTarget : Option String :=
  footer_links.head?.bind (fun g => g.items.head?.bind FooterLinkItem.toRoute)

/-- The first navbar item of the source (lines 73-78): the Concepts
docSidebar entry. -/
def conceptsNavbarEntry : NavbarItem :=
  { type := some "docSidebar", sidebarId := some "Concepts",
    position := some "left", label := some "Concepts" }

/-- The Console navbar item of the source (lines 103-107). -/
def consoleNavbarEntry : NavbarItem :=
  { href := some "https://console.superfluid.finance/",
    position := some "right", label := some "Console" }

/-- The single redirect rule of the client-redirects plugin
(lines 255-258). -/
def conceptsRedirect : Redirect :=
  { toRoute := "/docs/concepts/superfluid",
    fromPath := "/superfluid/protocol-overview/in-depth-overview" }

/-- The module state before any statement has run. -/
def emptyModuleState : ModuleState :=
  { configBinding := none, exported := none }

/-- Distributing a constant factor over a list sum. -/
theorem sum_map_mul_left_nat (c : Nat) (l : List Nat) :
    (l.map (fun u => c * u)).sum = c * l.sum := by
  induction l with
  | nil => simp
  | cons a t ih => simp [List.map_cons, List.sum_cons, ih, Nat.mul_add]

/-- Claim C1, counterexample: the claim says the configuration object
contains no field choosing how a build-time failure is handled, but the
top-level keys of the object do include onBrokenLinks and
onBrokenMarkdownLinks, which are exactly such policy fields. -/
theorem claim_C1_cex :
    ¬ ("onBrokenLinks" ∉ configTopLevelKeys ∧
       "onBrokenMarkdownLinks" ∉ configTopLevelKeys) := by
  decide

/-- Claim C1, amended: the repository does define a failure-handling
policy of its own: the configuration object carries the top-level fields
onBrokenLinks, set to ignore, and onBrokenMarkdownLinks, set to warn,
each choosing how the corresponding build-time failure is handled. -/
theorem claim_C1 (year : Nat) :
    (config year).onBrokenLinks = "ignore" ∧
    (config year).onBrokenMarkdownLinks = "warn" ∧
    "onBrokenLinks" ∈ configTopLevelKeys ∧
    "onBrokenMarkdownLinks" ∈ configTopLevelKeys :=
  ⟨rfl, rfl, by decide, by decide⟩

/-- Witness for claim C1 at the concrete year 2025. -/
theorem claim_C1_witness :
    (config 2025).onBrokenLinks = "ignore" ∧
    (config 2025).onBrokenMarkdownLinks = "warn" ∧
    "onBrokenLinks" ∈ configTopLevelKeys ∧
    "onBrokenMarkdownLinks" ∈ configTopLevelKeys :=
  claim_C1 2025

/-- Claim C2, counterexample: the claim says evaluating the configuration
module at any two times yields identical values, but the footer copyright
interpolates the current year, so the evaluations of 2024 and 2025
differ. -/
theorem claim_C2_cex : config 2024 ≠ config 2025 := fun h =>
  absurd (congrArg (fun c => c.themeConfig.footer.copyright) h) (by decide)

/-- Claim C2, amended: every field of the configuration except the footer
copyright string is a constant independent of the evaluation environment:
after replacing the copyright by a fixed string, evaluations at any two
years coincide; the copyright itself interpolates the evaluation year. -/
theorem claim_C2 (y1 y2 : Nat) :
    setCopyright (config y1) "" = setCopyright (config y2) "" ∧
    (config y1).themeConfig.footer.copyright =
      "Copyright © " ++ toString y1 ++ " Superfluid Finance LTD. Built with Docusaurus." :=
  ⟨rfl, rfl⟩

/-- Witness for claim C2 at the concrete years 2024 and 2025. -/
theorem claim_C2_witness :
    setCopyright (config 2024) "" = setCopyright (config 2025) "" ∧
    (config 2024).themeConfig.footer.copyright =
      "Copyright © " ++ toString 2024 ++ " Superfluid Finance LTD. Built with Docusaurus." :=
  claim_C2 2024 2025

/-- Claim C3: the flow-rate-per-unit rule of the content is natural
division rounded down: for a total flow rate F and a positive total unit
count U, the flow rate per unit q satisfies U * q ≤ F < U * (q + 1),
which characterises the floor of F / U; in particular 100 over 3 units
gives 33 and 100 over 200 units gives 0. -/
theorem claim_C3 (F U : Nat) (h : 0 < U) :
    U * flowRatePerUnit F U ≤ F ∧
    F < U * (flowRatePerUnit F U + 1) ∧
    flowRatePerUnit 100 3 = 33 ∧
    flowRatePerUnit 100 200 = 0 := by
  unfold flowRatePerUnit
  have h1 := Nat.div_add_mod F U
  have h2 := Nat.mod_lt F h
  refine ⟨by omega, ?_, by decide, by decide⟩
  rw [Nat.mul_add, Nat.mul_one]
  omega

/-- Witness for claim C3 at the concrete inputs F = 100, U = 3. -/
theorem claim_C3_witness :
    3 * flowRatePerUnit 100 3 ≤ 100 ∧
    100 < 3 * (flowRatePerUnit 100 3 + 1) ∧
    flowRatePerUnit 100 3 = 33 ∧
    flowRatePerUnit 100 200 = 0 :=
  claim_C3 100 3 (by decide)

set_option maxRecDepth 4000 in
/-- Claim C4, counterexample: the claim says that with a total flow rate
of 100 and 200 one-unit members, 200 tokens are left undistributed; the
two-step share algorithm it also states leaves 100 undistributed there,
and 100 is not 200. -/
theorem claim_C4_cex :
    undistributed 100 (List.replicate 200 1) = 100 ∧ (100 : Nat) ≠ 200 :=
  ⟨by decide, by decide⟩

set_option maxRecDepth 4000 in
/-- Claim C4, amended: under the two-step share algorithm each member
receives the flow rate per unit times its units, so the total distributed
is the flow rate per unit times the total units and the undistributed
remainder is F minus that product; with F = 100 and 3 one-unit members
1 token is left undistributed, and with F = 100 and 200 one-unit members
100 tokens (not 200) are left undistributed. -/
theorem claim_C4 (F : Nat) (members : List Nat) :
    totalDistributed F members = flowRatePerUnit F members.sum * members.sum ∧
    undistributed F members = F - flowRatePerUnit F members.sum * members.sum ∧
    undistributed 100 (List.replicate 3 1) = 1 ∧
    undistributed 100 (List.replicate 200 1) = 100 := by
  have ht : totalDistributed F members = flowRatePerUnit F members.sum * members.sum := by
    simp only [totalDistributed, memberFlowRate]
    exact sum_map_mul_left_nat _ _
  refine ⟨ht, ?_, by decide, by decide⟩
  unfold undistributed
  rw [ht]

/-- Witness for claim C4 at the concrete input F = 100 with 3 one-unit
members. -/
theorem claim_C4_witness :
    totalDistributed 100 (List.replicate 3 1) =
      flowRatePerUnit 100 (List.replicate 3 1).sum * (List.replicate 3 1).sum ∧
    undistributed 100 (List.replicate 3 1) =
      100 - flowRatePerUnit 100 (List.replicate 3 1).sum * (List.replicate 3 1).sum ∧
    undistributed 100 (List.replicate 3 1) = 1 ∧
    undistributed 100 (List.replicate 200 1) = 100 :=
  claim_C4 100 (List.replicate 3 1)

/-- Claim C5, counterexample: the claim says every navigation entry has a
label, a link target, and a position, but the first navbar item, the
Concepts docSidebar entry, is in the navbar list and has no link target
at all (neither an href nor an internal route). -/
theorem claim_C5_cex :
    conceptsNavbarEntry ∈ navbar_items ∧
    entryWellFormed conceptsNavbarEntry = false :=
  ⟨by decide, by decide⟩

/-- Claim C5, amended: every top-level navbar entry has a label and a
position, and each carries either a docSidebar identifier, an explicit
link target, or a non-empty dropdown child list; the dropdown children
themselves carry a label and an href but no position field. -/
theorem claim_C5 (i : NavbarItem) (h : i ∈ navbar_items) :
    i.label.isSome = true ∧ i.position.isSome = true ∧
    (i.sidebarId.isSome || hasLinkTarget i || !i.items.isEmpty) = true := by
  have H : ∀ j ∈ navbar_items, j.label.isSome = true ∧ j.position.isSome = true ∧
      (j.sidebarId.isSome || hasLinkTarget j || !j.items.isEmpty) = true := by decide
  exact H i h

/-- Witness for claim C5 at the concrete Console navbar entry. -/
theorem claim_C5_witness :
    consoleNavbarEntry.label.isSome = true ∧
    consoleNavbarEntry.position.isSome = true ∧
    (consoleNavbarEntry.sidebarId.isSome || hasLinkTarget consoleNavbarEntry ||
      !consoleNavbarEntry.items.isEmpty) = true :=
  claim_C5 consoleNavbarEntry (by decide)

/-- Claim C6: the configuration declares each described category of data
and each is present and non-empty: a non-empty navbar item list, non-empty
footer link groups, a color-mode setting, non-empty search-provider
credentials (application ID, API key, index name), and a non-empty plugin
list. -/
theorem claim_C6 (year : Nat) :
    (config year).themeConfig.navbar.items ≠ [] ∧
    (config year).themeConfig.footer.links ≠ [] ∧
    (config year).themeConfig.colorMode.defaultMode = "dark" ∧
    (config year).themeConfig.algolia.appId ≠ "" ∧
    (config year).themeConfig.algolia.apiKey ≠ "" ∧
    (config year).themeConfig.algolia.indexName ≠ "" ∧
    (config year).themeConfig.plugins ≠ [] := by
  refine ⟨?_, ?_, rfl, ?_, ?_, ?_, ?_⟩
  · show navbar_items ≠ []
    decide
  · show footer_links ≠ []
    decide
  · show algolia_block.appId ≠ ""
    decide
  · show algolia_block.apiKey ≠ ""
    decide
  · show algolia_block.indexName ≠ ""
    decide
  · show plugins_block ≠ []
    decide

/-- Witness for claim C6 at the concrete year 2025. -/
theorem claim_C6_witness :
    (config 2025).themeConfig.navbar.items ≠ [] ∧
    (config 2025).themeConfig.footer.links ≠ [] ∧
    (config 2025).themeConfig.colorMode.defaultMode = "dark" ∧
    (config 2025).themeConfig.algolia.appId ≠ "" ∧
    (config 2025).themeConfig.algolia.apiKey ≠ "" ∧
    (config 2025).themeConfig.algolia.indexName ≠ "" ∧
    (config 2025).themeConfig.plugins ≠ [] :=
  claim_C6 2025

/-- Claim C7: the module never mutates the configuration after it is
constructed: running the module leaves the binding equal to the
constructed object, exports exactly that object, and the only statement
after the construction, the default export, writes no field of the
binding. -/
theorem claim_C7 (year : Nat) (s : ModuleState) :
    (runModule year).configBinding = some (config year) ∧
    (runModule year).exported = some (config year) ∧
    (execStmt year s ModuleStmt.exportDefault).configBinding = s.configBinding :=
  ⟨rfl, rfl, rfl⟩

/-- Witness for claim C7 at the concrete year 2025 and the empty module
state. -/
theorem claim_C7_witness :
    (runModule 2025).configBinding = some (config 2025) ∧
    (runModule 2025).exported = some (config 2025) ∧
    (execStmt 2025 emptyModuleState ModuleStmt.exportDefault).configBinding =
      emptyModuleState.configBinding :=
  claim_C7 2025 emptyModuleState

/-- Claim C8: the algolia block and the search provider of the markprompt
block are wired to the same backing index: their appId, apiKey, and
indexName fields agree pairwise. -/
theorem claim_C8 (year : Nat) :
    (config year).themeConfig.algolia.appId =
      (config year).themeConfig.markprompt.search.provider.appId ∧
    (config year).themeConfig.algolia.apiKey =
      (config year).themeConfig.markprompt.search.provider.apiKey ∧
    (config year).themeConfig.algolia.indexName =
      (config year).themeConfig.markprompt.search.provider.indexName :=
  ⟨rfl, rfl, rfl⟩

/-- Witness for claim C8 at the concrete year 2025. -/
theorem claim_C8_witness :
    (config 2025).themeConfig.algolia.appId =
      (config 2025).themeConfig.markprompt.search.provider.appId ∧
    (config 2025).themeConfig.algolia.apiKey =
      (config 2025).themeConfig.markprompt.search.provider.apiKey ∧
    (config 2025).themeConfig.algolia.indexName =
      (config 2025).themeConfig.markprompt.search.provider.indexName :=
  claim_C8 2025

/-- Claim C9: the client-redirects plugin declares exactly one redirect;
its target is /docs/concepts/superfluid, which equals the link target of
the first footer item (the Concepts entry) and is among the internal
route targets declared by the footer, so the redirect never points at a
path absent from the declared navigation. -/
theorem claim_C9 (r : Redirect) (h : r ∈ clientRedirects) :
    clientRedirects.length = 1 ∧
    r.toRoute = "/docs/concepts/superfluid" ∧
    some r.toRoute = footerFirstTarget ∧
    r.toRoute ∈ footerRouteTargets := by
  have H : ∀ x ∈ clientRedirects, x.toRoute = "/docs/concepts/superfluid" ∧
      some x.toRoute = footerFirstTarget ∧ x.toRoute ∈ footerRouteTargets := by decide
  exact ⟨by decide, H r h⟩

/-- Witness for claim C9 at the concrete declared redirect. -/
theorem claim_C9_witness :
    clientRedirects.length = 1 ∧
    conceptsRedirect.toRoute = "/docs/concepts/superfluid" ∧
    some conceptsRedirect.toRoute = footerFirstTarget ∧
    conceptsRedirect.toRoute ∈ footerRouteTargets :=
  claim_C9 conceptsRedirect (by decide)

/-- Claim C10: the internationalization settings are self-consistent: the
configured default locale is a member of the configured locale list. -/
theorem claim_C10 (year : Nat) :
    (config year).i18n.defaultLocale ∈ (config year).i18n.locales := by
  show ("en" : String) ∈ ["en"]
  decide

/-- Witness for claim C10 at the concrete year 2025. -/
theorem claim_C10_witness :
    (config 2025).i18n.defaultLocale ∈ (config 2025).i18n.locales :=
  claim_C10 2025
